import Mathlib

/-!
Shallow embedding of `src/backend/lib/endpoints/users.js` (FightPandemics
backend), covering the directory-search pipeline of the `GET /api/users/`
handler, the privacy projection of `GET /api/users/:userId`, the
profile-update propagation of `PATCH /api/users/current` and
`updateUserAvatar`, and the unsubscribe expiry checks.

MongoDB aggregation stages are modelled as list transformations; the
database is a `List UserProfile`.  JavaScript truthiness of optional
request fields is modelled explicitly where the code relies on it.
-/

namespace FP

/-- A geographic point `(longitude, latitude)`, modelled over ℤ.  The real
code stores GeoJSON coordinates; only their ordering under a distance
function matters here. -/
abbrev Point := Int × Int

/-- The `location` subdocument of a user profile: coordinates (possibly
absent on a stored document) and the three text jurisdiction fields. -/
structure Location where
  coordinates : Option Point
  country : String
  state : String
  city : String
deriving Repr, DecidableEq

/-- The `needs` flags of a profile. -/
structure Needs where
  medicalHelp : Bool
  otherHelp : Bool
deriving Repr, DecidableEq

/-- The `objectives` flags of a profile. -/
structure Objectives where
  donate : Bool
  shareInformation : Bool
  volunteer : Bool
deriving Repr, DecidableEq

/-- A stored user profile document.  `_id` is modelled as ℕ (MongoDB
ObjectIds are totally ordered; the pipeline only compares them).
`hideAddress` models the stored `hide.address` flag. -/
structure UserProfile where
  _id : Nat
  type : String
  firstName : Option String
  lastName : Option String
  about : Option String
  location : Option Location
  hideAddress : Bool
  needs : Needs
  objectives : Objectives
  photo : Option String
  urls : List String
  usesPassword : Bool
  notifyPrefs : String
deriving Repr, DecidableEq

/-- Modelled from the spec: the canonical display name computed from the
just-updated profile (`updatedUser.name`).  The mongoose user model that
defines the `name` field is not under `src/`; the spec describes it as the
profile's display name derived from the first and last name. -/
def UserProfile.name (u : UserProfile) : String :=
  u.firstName.getD "" ++ " " ++ u.lastName.getD ""

/-- The validated `objective` query parameter. -/
inductive Objective where
  | request
  | offer
deriving Repr, DecidableEq

/-- The validated query of `GET /api/users/`.  `keywords = ""` models an
absent or empty keyword (both are falsy in the handler).  `queryLocation`
is `queryFilters.location`, decoded from the `filter` parameter. -/
structure SearchQuery where
  ignoreUserLocation : Bool
  queryLocation : Option Location
  keywords : String
  objective : Option Objective
  limit : Option Int
  skip : Option Nat
  includeMeta : Bool
deriving Repr, DecidableEq

/-- `location` variable of the handler: prefer the location from the query
filters, then the authenticated user's stored location unless
`ignoreUserLocation` is set. -/
def effectiveLocation (q : SearchQuery) (user : Option UserProfile) : Option Location :=
  match q.queryLocation with
  | some loc => some loc
  | none =>
    match user with
    | some u => if q.ignoreUserLocation then none else u.location
    | none => none

/-- Case-insensitive substring test.  Models the case-insensitive regex
built by `createSearchRegex` (in `lib/utils`, an external helper), which
escapes the keyword literal and matches it anywhere in the field. -/
def matchesKeyword (needle hay : String) : Bool :=
  needle.isEmpty || decide (2 ≤ ((hay.toLower).splitOn needle.toLower).length)

/-- One predicate fragment pushed onto the handler's `filters` array. -/
inductive SearchFilter where
  | typeIndividual
  | hideAddressFalse
  | objectiveFilter (o : Objective)
  | keywordFilter (kw : String)
deriving Repr, DecidableEq

/-- Evaluation of a filter fragment on a stored profile, following the
MongoDB `$match` semantics of each fragment (a regex on an absent field
does not match). -/
def SearchFilter.eval : SearchFilter → UserProfile → Bool
  | .typeIndividual, u => u.type == "Individual"
  | .hideAddressFalse, u => u.hideAddress == false
  | .objectiveFilter .request, u => u.needs.medicalHelp || u.needs.otherHelp
  | .objectiveFilter .offer, u =>
      u.objectives.donate || u.objectives.shareInformation || u.objectives.volunteer
  | .keywordFilter kw, u =>
      matchesKeyword kw u.name ||
      matchesKeyword kw (u.firstName.getD "") ||
      matchesKeyword kw (u.lastName.getD "") ||
      (match u.about with | some a => matchesKeyword kw a | none => false) ||
      (match u.location with
       | some l => matchesKeyword kw l.country || matchesKeyword kw l.state ||
                   matchesKeyword kw l.city
       | none => false)

/-- The `filters` array assembled by the handler, with the pushes in
source order: the base Individual-type predicate, the hidden-address
predicate when an explicit location override was supplied, the objective
predicate, and the keyword regex disjunction when both an effective
location and a keyword are present. -/
def buildFilters (q : SearchQuery) (user : Option UserProfile) : List SearchFilter :=
  let f0 := [SearchFilter.typeIndividual]
  let f1 := if q.queryLocation.isSome then f0 ++ [SearchFilter.hideAddressFalse] else f0
  let f2 :=
    match q.objective with
    | some o => f1 ++ [SearchFilter.objectiveFilter o]
    | none => f1
  if (effectiveLocation q user).isSome && !(q.keywords == "") then
    f2 ++ [SearchFilter.keywordFilter q.keywords]
  else f2

/-- Conjunction of all assembled filter fragments (`{$and: filters}`). -/
def matchesAll (fs : List SearchFilter) (u : UserProfile) : Bool :=
  fs.all (fun f => f.eval u)

/-- The external MongoDB text index consumed by the `$text` / `textScore`
stages; its matching relation and relevance score are parameters of the
model. -/
structure TextIndex where
  isMatch : String → UserProfile → Bool
  score : String → UserProfile → Nat

/-- The ranking plan selected by the handler, as a tagged variant. -/
inductive RankingPlan where
  | geo (loc : Location)
  | textRel (kw : String)
  | byIdDesc
deriving Repr, DecidableEq

/-- Plan selection: the `location ? geoNear : keywords ? text : default`
conditional of `sortAndFilterSteps`. -/
def selectPlan (q : SearchQuery) (user : Option UserProfile) : RankingPlan :=
  match effectiveLocation q user with
  | some loc => .geo loc
  | none => if q.keywords == "" then .byIdDesc else .textRel q.keywords

/-- Squared Euclidean distance, the model of the distance computed by
`$geoNear` (monotonically equivalent to the geodesic distance for the
ordering properties stated here). -/
def sqDist (a b : Point) : Nat :=
  ((a.1 - b.1) ^ 2 + (a.2 - b.2) ^ 2).toNat

/-- Whether a stored document has an indexable `location.coordinates`
value; `$geoNear` only returns such documents. -/
def hasCoordinates (u : UserProfile) : Bool :=
  match u.location with
  | some l => l.coordinates.isSome
  | none => false

/-- The `distance` field `$geoNear` attaches to a returned document,
anchored at `c`.  Documents without coordinates never reach the point
where this is read. -/
def geoDistance (c : Point) (u : UserProfile) : Nat :=
  match u.location with
  | some l =>
    match l.coordinates with
    | some p => sqDist c p
    | none => 0
  | none => 0

/-- The order of `{$sort: {distance: 1, _id: -1}}`: ascending distance,
ties broken by descending identity. -/
def geoOrder (c : Point) (a b : UserProfile) : Prop :=
  geoDistance c a < geoDistance c b ∨
    (geoDistance c a = geoDistance c b ∧ b._id ≤ a._id)

instance (c : Point) : DecidableRel (geoOrder c) := fun a b => by
  unfold geoOrder; infer_instance

instance (c : Point) : IsTotal UserProfile (geoOrder c) where
  total a b := by
    unfold geoOrder
    rcases Nat.lt_trichotomy (geoDistance c a) (geoDistance c b) with h | h | h
    · exact Or.inl (Or.inl h)
    · rcases Nat.le_total a._id b._id with hid | hid
      · exact Or.inr (Or.inr ⟨h.symm, hid⟩)
      · exact Or.inl (Or.inr ⟨h, hid⟩)
    · exact Or.inr (Or.inl h)

instance (c : Point) : IsTrans UserProfile (geoOrder c) where
  trans a b d hab hbd := by
    unfold geoOrder at hab hbd ⊢
    rcases hab with h1 | ⟨h1, h1i⟩ <;> rcases hbd with h2 | ⟨h2, h2i⟩ <;>
      first
        | exact Or.inl (by omega)
        | exact Or.inr ⟨by omega, by omega⟩

/-- The order of `{$sort: {score: {$meta: "textScore"}}}`: descending
relevance score (a metadata sort on `textScore` is descending). -/
def textScoreOrder (ti : TextIndex) (kw : String) (a b : UserProfile) : Prop :=
  ti.score kw b ≤ ti.score kw a

instance (ti : TextIndex) (kw : String) : DecidableRel (textScoreOrder ti kw) :=
  fun a b => by unfold textScoreOrder; infer_instance

instance (ti : TextIndex) (kw : String) : IsTotal UserProfile (textScoreOrder ti kw) where
  total a b := by unfold textScoreOrder; omega

instance (ti : TextIndex) (kw : String) : IsTrans UserProfile (textScoreOrder ti kw) where
  trans a b d hab hbd := by unfold textScoreOrder at hab hbd ⊢; omega

/-- The order of `{$sort: {_id: -1}}`: descending identity. -/
def idDescOrder (a b : UserProfile) : Prop :=
  b._id ≤ a._id

instance : DecidableRel idDescOrder := fun a b => by
  unfold idDescOrder; infer_instance

instance : IsTotal UserProfile idDescOrder where
  total a b := by unfold idDescOrder; omega

instance : IsTrans UserProfile idDescOrder where
  trans a b d hab hbd := by unfold idDescOrder at hab hbd ⊢; omega

/-- The `sortAndFilterSteps` stages of the pipeline, run on a database.
In the geo plan, `$geoNear` applies the assembled filters inside its
`query`, restricts to documents with indexed coordinates, and orders by
the anchor distance; the explicit sort refines ties by descending `_id`.
A `$geoNear` whose anchor has no coordinates is rejected by the driver
(the handler would surface an internal error); that case yields `none`. -/
def sortAndFilterSteps (ti : TextIndex) (q : SearchQuery) (user : Option UserProfile)
    (db : List UserProfile) : Option (List UserProfile) :=
  match selectPlan q user with
  | .geo loc =>
    match loc.coordinates with
    | some c =>
      some (List.insertionSort (geoOrder c)
        (db.filter (fun u => hasCoordinates u && matchesAll (buildFilters q user) u)))
    | none => none
  | .textRel kw =>
    some (List.insertionSort (textScoreOrder ti kw)
      (db.filter (fun u => matchesAll (buildFilters q user) u && ti.isMatch kw u)))
  | .byIdDesc =>
    some (List.insertionSort idDescOrder
      (db.filter (fun u => matchesAll (buildFilters q user) u)))

/-- The `paginationSteps` stages: `$skip` with `skip || 0`, then — unless
`limit === -1` — `$limit` with `limit || USERS_PAGE_SIZE` (so an absent or
zero limit falls back to the page size 10). -/
def paginationSteps (q : SearchQuery) (l : List UserProfile) : List UserProfile :=
  let s := q.skip.getD 0
  if q.limit == some (-1) then l.drop s
  else
    let lim : Int :=
      match q.limit with
      | none => 10
      | some i => if i == 0 then 10 else i
    (l.drop s).take lim.toNat

/-- The shape of one element of the search response after the
`$project` / `$unset` stages. -/
structure ProjectedUser where
  _id : Nat
  about : Option String
  firstName : Option String
  lastName : Option String
  type : String
  hideAddress : Bool
  location : Option Location
  urls : List String
  objectives : Objectives
  needs : Needs
  photo : Option String
deriving Repr, DecidableEq

/-- The `projectionSteps` stages applied to one document: the `$project`
keeps the listed fields and replaces `location` by
`$cond: [$hide.address, null, $location]`; the following
`$unset "location.coordinates"` removes the coordinates from whatever
location survived. -/
def projectUser (u : UserProfile) : ProjectedUser :=
  { _id := u._id
    about := u.about
    firstName := u.firstName
    lastName := u.lastName
    type := u.type
    hideAddress := u.hideAddress
    location := (if u.hideAddress then none else u.location).map
      (fun l => { l with coordinates := none })
    urls := u.urls
    objectives := u.objectives
    needs := u.needs
    photo := u.photo }

/-- The full results pipeline `aggregationPipelineResults`:
sort-and-filter, then pagination, then projection. -/
def searchUsers (ti : TextIndex) (q : SearchQuery) (user : Option UserProfile)
    (db : List UserProfile) : Option (List ProjectedUser) :=
  (sortAndFilterSteps ti q user db).map
    (fun l => (paginationSteps q l).map projectUser)

/-- The `$match` predicate of the counting pipeline
`totalResultsAggregationPipeline`: the assembled filters, plus the
`$text` match exactly when a keyword is present without an effective
location. -/
def countMatchPred (ti : TextIndex) (q : SearchQuery) (user : Option UserProfile)
    (u : UserProfile) : Bool :=
  if !(q.keywords == "") && (effectiveLocation q user).isNone then
    matchesAll (buildFilters q user) u && ti.isMatch q.keywords u
  else
    matchesAll (buildFilters q user) u

/-- The counting pipeline: `$match` then
`$group: {_id: null, count: {$sum: 1}}`, which produces one group per
non-empty match set and no document at all on zero matches. -/
def totalResultsAggregationPipeline (ti : TextIndex) (q : SearchQuery)
    (user : Option UserProfile) (db : List UserProfile) : List Nat :=
  let matched := db.filter (countMatchPred ti q user)
  if matched.isEmpty then [] else [matched.length]

/-- The response of `GET /api/users/`: a bare list, or
`{meta: {total}, data}` when `includeMeta` was requested. -/
inductive SearchResponse where
  | bare (data : List ProjectedUser)
  | withMeta (total : Nat) (data : List ProjectedUser)
deriving Repr, DecidableEq

/-- The `responseHandler` closure: wrap the data with
`total = pipeline.length ? pipeline[0].count : 0` when `includeMeta` is
set. -/
def responseHandler (q : SearchQuery) (totalPipeline : List Nat)
    (data : List ProjectedUser) : SearchResponse :=
  if q.includeMeta then
    .withMeta (match totalPipeline with | [] => 0 | c :: _ => c) data
  else .bare data

/-- The whole `GET /api/users/` handler on a database: `none` models the
internal-error path (failed aggregation). -/
def getUsersEndpoint (ti : TextIndex) (q : SearchQuery) (user : Option UserProfile)
    (db : List UserProfile) : Option SearchResponse :=
  (searchUsers ti q user db).map
    (responseHandler q (totalResultsAggregationPipeline ti q user db))

/-- A location with every field absent: the `location = {}` assigned by
the single-profile read for hidden addresses (absent text fields are
modelled as empty strings). -/
def emptyLocation : Location :=
  { coordinates := none, country := "", state := "", city := "" }

/-- The response of `GET /api/users/:userId`. -/
structure UserByIdResponse where
  about : Option String
  firstName : Option String
  _id : Nat
  lastName : Option String
  location : Location
  needs : Needs
  objectives : Objectives
  ownUser : Bool
  photo : Option String
  urls : List String
  usesPassword : Option Bool
deriving Repr, DecidableEq

/-- The `GET /api/users/:userId` handler: find the profile, delete
`location.coordinates`, blank the whole location when `hide.address` is
set, compute `ownUser`, and suppress `usesPassword` for other viewers.
`none` models the paths that produce no response document (profile not
found, or the `delete location.coordinates` statement raising on a
profile without a location). -/
def getUserById (db : List UserProfile) (paramId : Nat) (authUserId : Option Nat) :
    Option UserByIdResponse :=
  match db.find? (fun u => u._id == paramId) with
  | none => none
  | some u =>
    match u.location with
    | none => none
    | some loc =>
      let strippedLoc : Location := { loc with coordinates := none }
      let finalLoc := if u.hideAddress then emptyLocation else strippedLoc
      let ownUser := authUserId == some u._id
      some
        { about := u.about
          firstName := u.firstName
          _id := u._id
          lastName := u.lastName
          location := finalLoc
          needs := u.needs
          objectives := u.objectives
          ownUser := ownUser
          photo := u.photo
          urls := u.urls
          usesPassword := if ownUser then some u.usesPassword else none }

/-- One optional field of the `PATCH /api/users/current` body, keeping
the JavaScript distinction between an absent key, an explicit `null`, and
a string value. -/
inductive BodyField where
  | absent
  | nullVal
  | strVal (s : String)
deriving Repr, DecidableEq

/-- JavaScript truthiness of a body field: only a non-empty string is
truthy. -/
def BodyField.truthy : BodyField → Bool
  | .strVal s => !s.isEmpty
  | _ => false

/-- The validated body of `PATCH /api/users/current`, restricted to the
fields the propagation logic inspects plus one unrelated field. -/
structure UpdateBody where
  firstName : BodyField
  lastName : BodyField
  photo : BodyField
  about : BodyField
deriving Repr, DecidableEq

/-- `Object.assign` of one body field onto the stored value. -/
def applyField (cur : Option String) : BodyField → Option String
  | .absent => cur
  | .nullVal => none
  | .strVal s => some s

/-- `Object.assign(user, body)`: merge the submitted fields onto the
stored profile. -/
def applyBody (u : UserProfile) (b : UpdateBody) : UserProfile :=
  { u with
    firstName := applyField u.firstName b.firstName
    lastName := applyField u.lastName b.lastName
    photo := applyField u.photo b.photo
    about := applyField u.about b.about }

/-- The denormalized author snapshot embedded in posts and comments. -/
structure AuthorRef where
  id : Nat
  name : String
  photo : Option String
deriving Repr, DecidableEq

/-- A post document, as far as propagation touches it. -/
structure Post where
  author : AuthorRef
  content : String
deriving Repr, DecidableEq

/-- A comment document, as far as propagation touches it. -/
structure CommentDoc where
  author : AuthorRef
  content : String
deriving Repr, DecidableEq

/-- One entry of a thread's `participants` array. -/
structure Participant where
  id : Nat
  name : String
  photo : Option String
deriving Repr, DecidableEq

/-- A conversation thread, as far as propagation touches it. -/
structure Thread where
  participants : List Participant
  topic : String
deriving Repr, DecidableEq

/-- The collections touched by the profile-update handlers. -/
structure AppState where
  users : List UserProfile
  posts : List Post
  comments : List CommentDoc
  threads : List Thread
deriving Repr, DecidableEq

/-- The `updateOps` object of the PATCH handler: `author.name` is present
iff a name field was truthy, `author.photo` iff the photo field was
truthy (the avatar routes always set the photo). -/
structure AuthorUpdateOps where
  name : Option String
  photo : Option (Option String)
deriving Repr, DecidableEq

/-- `$set` of the assembled `updateOps` on one embedded author snapshot. -/
def applyAuthorOps (ops : AuthorUpdateOps) (a : AuthorRef) : AuthorRef :=
  { a with
    name := ops.name.getD a.name
    photo := match ops.photo with | some p => p | none => a.photo }

/-- `Post.updateMany({author.id: uid}, {$set: updateOps})`. -/
def postUpdateMany (uid : Nat) (ops : AuthorUpdateOps) (ps : List Post) : List Post :=
  ps.map (fun p => if p.author.id == uid then { p with author := applyAuthorOps ops p.author } else p)

/-- `Comment.updateMany({author.id: uid}, {$set: updateOps})`. -/
def commentUpdateMany (uid : Nat) (ops : AuthorUpdateOps) (cs : List CommentDoc) :
    List CommentDoc :=
  cs.map (fun c => if c.author.id == uid then { c with author := applyAuthorOps ops c.author } else c)

/-- `$set` on one participant entry selected by the
`userToUpdate.id == uid` array filter: `setName`/`setPhoto` are present
iff the corresponding `participants.$[userToUpdate]` path is in the
`$set` document. -/
def updateParticipant (setName : Option String) (setPhoto : Option (Option String))
    (p : Participant) : Participant :=
  { p with
    name := setName.getD p.name
    photo := match setPhoto with | some v => v | none => p.photo }

/-- `Thread.updateMany({participants.id: uid}, {$set: ...},
{arrayFilters: [{userToUpdate.id: uid}]})`: in every thread having the
profile as a participant, rewrite exactly the entries whose id equals
`uid`. -/
def threadUpdateMany (uid : Nat) (setName : Option String)
    (setPhoto : Option (Option String)) (ts : List Thread) : List Thread :=
  ts.map (fun t =>
    if t.participants.any (fun p => p.id == uid) then
      { t with participants :=
          t.participants.map (fun p =>
            if p.id == uid then updateParticipant setName setPhoto p else p) }
    else t)

/-- Injected failures of the three dependent-collection updates; a `true`
flag makes the corresponding `updateMany` reject, which `app.to` turns
into a logged error without a throw. -/
structure PropagationFailures where
  posts : Bool
  comments : Bool
  threads : Bool
deriving Repr, DecidableEq

/-- No injected propagation failure. -/
def noFailures : PropagationFailures :=
  { posts := false, comments := false, threads := false }

/-- The `PATCH /api/users/current` handler: load the caller's profile,
merge and save the body, then — only when a submitted `firstName`,
`lastName` or `photo` is truthy — fan out the author-snapshot updates to
posts, comments and threads.  Each fan-out failure is logged and skipped;
the handler returns the updated profile regardless.  The first component
is the response (`none` models the not-found error). -/
def patchCurrentUser (st : AppState) (userId : Nat) (b : UpdateBody)
    (f : PropagationFailures) : Option UserProfile × AppState :=
  match st.users.find? (fun u => u._id == userId) with
  | none => (none, st)
  | some u =>
    let updated := applyBody u b
    let users2 := st.users.map (fun v => if v._id == userId then updated else v)
    if b.firstName.truthy || b.lastName.truthy || b.photo.truthy then
      let ops : AuthorUpdateOps :=
        { name := if b.firstName.truthy || b.lastName.truthy then some updated.name else none
          photo := if b.photo.truthy then some updated.photo else none }
      let posts2 := if f.posts then st.posts else postUpdateMany userId ops st.posts
      let comments2 := if f.comments then st.comments else commentUpdateMany userId ops st.comments
      let threads2 :=
        if f.threads then st.threads
        else threadUpdateMany userId (some updated.name) (some updated.photo) st.threads
      (some updated,
        { users := users2, posts := posts2, comments := comments2, threads := threads2 })
    else (some updated, { st with users := users2 })

/-- The `updateUserAvatar` helper shared by `POST /current/avatar` and
`DELETE /current/avatar`: set the profile photo to the uploaded CDN
reference (or `null` on deletion), save, and unconditionally fan out the
`author.photo` update to posts, comments and threads, each failure being
logged and skipped.  `file = none` is the deletion case; a `some`
reference models the value returned by the external CDN upload. -/
def updateUserAvatar (st : AppState) (userId : Nat) (file : Option String)
    (f : PropagationFailures) : Option UserProfile × AppState :=
  match st.users.find? (fun u => u._id == userId) with
  | none => (none, st)
  | some u =>
    let updated := { u with photo := file }
    let users2 := st.users.map (fun v => if v._id == userId then updated else v)
    let ops : AuthorUpdateOps := { name := none, photo := some updated.photo }
    let posts2 := if f.posts then st.posts else postUpdateMany userId ops st.posts
    let comments2 := if f.comments then st.comments else commentUpdateMany userId ops st.comments
    let threads2 :=
      if f.threads then st.threads
      else threadUpdateMany userId none (some updated.photo) st.threads
    (some updated,
      { users := users2, posts := posts2, comments := comments2, threads := threads2 })

/-- The payload decoded by the GET unsubscribe route: the standard `exp`
claim, in seconds. -/
structure UnsubTokenGet where
  userId : Nat
  exp : Nat
deriving Repr, DecidableEq

/-- The payload decoded by the PATCH unsubscribe route: a custom
`expireDate` field, in milliseconds. -/
structure UnsubTokenPatch where
  userId : Nat
  expireDate : Nat
deriving Repr, DecidableEq

/-- Outcome of an unsubscribe route for a validly signed token. -/
inductive UnsubResult (α : Type) where
  | badRequestExpired
  | notFound
  | internalError
  | ok (a : α)
deriving Repr, DecidableEq

/-- The `GET /api/users/unsubscribe` handler after the external verifier
accepted the signature: reject with the bad-request expiry error when
`exp * 1000 < Date.now()`, otherwise look the user up and return the
notification preferences.  `now` is `Date.now()` in milliseconds. -/
def getUnsubscribe (db : List UserProfile) (tok : UnsubTokenGet) (now : Nat) :
    UnsubResult String :=
  if tok.exp * 1000 < now then .badRequestExpired
  else
    match db.find? (fun u => u._id == tok.userId) with
    | none => .notFound
    | some u => .ok u.notifyPrefs

/-- The `PATCH /api/users/unsubscribe` handler after the external
verifier accepted the signature: reject with the bad-request expiry error
when `expireDate < Date.now()`, otherwise `findOneAndUpdate` the user's
notification preferences.  When no user matches, the handler dereferences
the `null` update result, which raises (modelled as `internalError`). -/
def patchUnsubscribe (db : List UserProfile) (tok : UnsubTokenPatch) (now : Nat)
    (newPrefs : String) : UnsubResult String :=
  if tok.expireDate < now then .badRequestExpired
  else
    match db.find? (fun u => u._id == tok.userId) with
    | none => .internalError
    | some _ => .ok newPrefs

/-! Concrete sample data used to evaluate the model on specific inputs. -/

/-- A text index with no matches, for concrete evaluations that never
reach the text plan. -/
def tiZero : TextIndex :=
  { isMatch := fun _ _ => false, score := fun _ _ => 0 }

/-- A sample searchable profile without a stored location. -/
def sampleUser : UserProfile :=
  { _id := 1, type := "Individual", firstName := some "Ann", lastName := some "Lee",
    about := none, location := none, hideAddress := false,
    needs := { medicalHelp := false, otherHelp := false },
    objectives := { donate := false, shareInformation := false, volunteer := false },
    photo := some "pic.png", urls := [], usesPassword := false, notifyPrefs := "all" }

/-- A query with `limit = 0` and neither location nor keyword. -/
def qLimitZero : SearchQuery :=
  { ignoreUserLocation := false, queryLocation := none, keywords := "", objective := none,
    limit := some 0, skip := none, includeMeta := false }

/-- A default query: no location, no keyword, no explicit paging. -/
def qPlain : SearchQuery :=
  { ignoreUserLocation := false, queryLocation := none, keywords := "", objective := none,
    limit := none, skip := none, includeMeta := false }

/-- A default query that also requests metadata. -/
def qMeta : SearchQuery :=
  { ignoreUserLocation := false, queryLocation := none, keywords := "", objective := none,
    limit := none, skip := none, includeMeta := true }

/-- A location override anchored at the origin. -/
def locOrigin : Location :=
  { coordinates := some (0, 0), country := "X", state := "Y", city := "Z" }

/-- A query carrying the origin as explicit location override. -/
def qGeo : SearchQuery :=
  { ignoreUserLocation := false, queryLocation := some locOrigin, keywords := "",
    objective := none, limit := none, skip := none, includeMeta := false }

/-- A profile one unit from the origin. -/
def userNear : UserProfile :=
  { sampleUser with
    _id := 2
    location := some { coordinates := some (1, 0), country := "A", state := "B", city := "C" } }

/-- A profile two units from the origin. -/
def userFar : UserProfile :=
  { sampleUser with
    _id := 3
    location := some { coordinates := some (2, 0), country := "A", state := "B", city := "C" } }

/-- A post authored by `sampleUser`, carrying its denormalized snapshot. -/
def samplePost : Post :=
  { author := { id := 1, name := "Ann Lee", photo := some "pic.png" }, content := "hello" }

/-- A comment authored by `sampleUser`. -/
def sampleComment : CommentDoc :=
  { author := { id := 1, name := "Ann Lee", photo := some "pic.png" }, content := "hi" }

/-- A thread with `sampleUser` and one other participant. -/
def sampleThread : Thread :=
  { participants := [{ id := 1, name := "Ann Lee", photo := some "pic.png" },
                     { id := 7, name := "Bob", photo := none }],
    topic := "t" }

/-- An application state holding the sample documents. -/
def sampleState : AppState :=
  { users := [sampleUser], posts := [samplePost], comments := [sampleComment],
    threads := [sampleThread] }

/-- A body that only sets `photo` to `null`. -/
def bodyPhotoNull : UpdateBody :=
  { firstName := .absent, lastName := .absent, photo := .nullVal, about := .absent }

/-- A body that only sets a new first name. -/
def bodyNewName : UpdateBody :=
  { firstName := .strVal "Jo", lastName := .absent, photo := .absent, about := .absent }

/-- An injected failure of the posts update only. -/
def failPostsOnly : PropagationFailures :=
  { posts := true, comments := false, threads := false }

/-! Helper lemmas shared by several claims. -/

theorem SearchFilter.eval_set_hideAddress (f : SearchFilter)
    (hf : f ≠ SearchFilter.hideAddressFalse) (u : UserProfile) (b : Bool) :
    f.eval { u with hideAddress := b } = f.eval u := by
  cases f with
  | typeIndividual => rfl
  | hideAddressFalse => exact absurd rfl hf
  | objectiveFilter o => cases o <;> rfl
  | keywordFilter kw => rfl

theorem matchesAll_set_hideAddress (fs : List SearchFilter)
    (h : SearchFilter.hideAddressFalse ∉ fs) (u : UserProfile) (b : Bool) :
    matchesAll fs { u with hideAddress := b } = matchesAll fs u := by
  induction fs with
  | nil => rfl
  | cons f rest ih =>
    have hf : f ≠ SearchFilter.hideAddressFalse := by
      intro hc
      exact h (by rw [hc]; exact List.mem_cons_self _ _)
    have hrest : SearchFilter.hideAddressFalse ∉ rest := fun hm =>
      h (List.mem_cons_of_mem f hm)
    simp only [matchesAll, List.all_cons] at ih ⊢
    rw [SearchFilter.eval_set_hideAddress f hf u b, ih hrest]

theorem hideAddressFalse_mem_buildFilters (q : SearchQuery) (user : Option UserProfile) :
    SearchFilter.hideAddressFalse ∈ buildFilters q user ↔ q.queryLocation.isSome = true := by
  unfold buildFilters
  cases hq : q.queryLocation.isSome <;>
    cases ho : q.objective <;>
      by_cases hk : ((effectiveLocation q user).isSome && !(q.keywords == "")) = true <;>
        simp [hq, ho, hk]

theorem result_ids_nodup (r : UserProfile → UserProfile → Prop) [DecidableRel r]
    (db : List UserProfile) (p : UserProfile → Bool)
    (hids : (db.map UserProfile._id).Nodup) :
    ((List.insertionSort r (db.filter p)).map UserProfile._id).Nodup := by
  have h1 : (db.filter p).Sublist db := List.filter_sublist db
  have h3 : ((db.filter p).map UserProfile._id).Nodup := (h1.map _).nodup hids
  have h4 : (List.insertionSort r (db.filter p)).Perm (db.filter p) :=
    List.perm_insertionSort r _
  exact ((h4.map UserProfile._id).symm).nodup h3

theorem pairwise_id_ne (l : List UserProfile) (h : (l.map UserProfile._id).Nodup) :
    l.Pairwise (fun a b => a._id ≠ b._id) :=
  List.pairwise_map.mp h

/-! The claims. -/

/-- C2: the hidden-address predicate is part of the assembled filter set
exactly when an explicit location override was supplied in the request;
without an override (in particular when the effective location is the
requester's own stored location, and in keyword-only or default
searches), the filter set does not discriminate on the hidden-address
flag. -/
theorem hidden_address_filter_iff_override (q : SearchQuery) (user : Option UserProfile) :
    (SearchFilter.hideAddressFalse ∈ buildFilters q user ↔ q.queryLocation.isSome = true) ∧
    (q.queryLocation = none →
      ∀ (u : UserProfile) (b : Bool),
        matchesAll (buildFilters q user) { u with hideAddress := b } =
          matchesAll (buildFilters q user) u) := by
  refine ⟨hideAddressFalse_mem_buildFilters q user, ?_⟩
  intro hq u b
  apply matchesAll_set_hideAddress
  intro hmem
  have := (hideAddressFalse_mem_buildFilters q user).mp hmem
  rw [hq] at this
  simp at this

/-- C2 witness: on a concrete override-free query the filter set ignores
the hidden-address flag, and on a concrete override query the predicate
is present. -/
theorem hidden_address_filter_iff_override_witness :
    matchesAll (buildFilters qPlain none) { sampleUser with hideAddress := true } =
      matchesAll (buildFilters qPlain none) sampleUser ∧
    (SearchFilter.hideAddressFalse ∈ buildFilters qGeo none ↔ qGeo.queryLocation.isSome = true) :=
  ⟨(hidden_address_filter_iff_override qPlain none).2 rfl sampleUser true,
   (hidden_address_filter_iff_override qGeo none).1⟩

/-- C3: every profile in a directory-search result has a `null` projected
location whenever its hide-address flag is true, and no projected
location ever carries raw coordinates; a single-profile read likewise
never returns coordinates, for any viewer. -/
theorem privacy_projection (ti : TextIndex) (q : SearchQuery) (user : Option UserProfile)
    (db : List UserProfile) (res : List ProjectedUser)
    (h : searchUsers ti q user db = some res) :
    (∀ r ∈ res, (r.hideAddress = true → r.location = none) ∧
      ∀ l, r.location = some l → l.coordinates = none) ∧
    (∀ (db2 : List UserProfile) (pid : Nat) (auth : Option Nat) (resp : UserByIdResponse),
      getUserById db2 pid auth = some resp → resp.location.coordinates = none) := by
  constructor
  · intro r hr
    unfold searchUsers at h
    cases hsf : sortAndFilterSteps ti q user db with
    | none => rw [hsf] at h; simp at h
    | some base =>
      rw [hsf] at h
      simp only [Option.map_some'] at h
      have hres : res = (paginationSteps q base).map projectUser := by
        injection h with h2
        exact h2.symm
      subst hres
      rcases List.mem_map.mp hr with ⟨u, _, rfl⟩
      constructor
      · intro hhide
        have hu : u.hideAddress = true := hhide
        simp [projectUser, hu]
      · intro l hl
        simp only [projectUser] at hl
        rcases Option.map_eq_some'.mp hl with ⟨l0, _, hl0⟩
        rw [← hl0]
  · intro db2 pid auth resp h2
    cases hf : db2.find? (fun u => u._id == pid) with
    | none => simp [getUserById, hf] at h2
    | some u =>
      cases hloc : u.location with
      | none => simp [getUserById, hf, hloc] at h2
      | some loc =>
        simp only [getUserById, hf, hloc, Option.some.injEq] at h2
        rw [← h2]
        by_cases hh : u.hideAddress <;> simp [hh, emptyLocation]

/-- C3 witness: evaluated on a concrete one-profile database for both the
search and the single-profile read. -/
theorem privacy_projection_witness :
    (∀ r ∈ [projectUser sampleUser], (r.hideAddress = true → r.location = none) ∧
      ∀ l, r.location = some l → l.coordinates = none) ∧
    (∀ (db2 : List UserProfile) (pid : Nat) (auth : Option Nat) (resp : UserByIdResponse),
      getUserById db2 pid auth = some resp → resp.location.coordinates = none) :=
  privacy_projection tiZero qPlain none [sampleUser] [projectUser sampleUser] rfl

/-- C8: the thread propagation update preserves the length of every
thread list and of every participant array, and leaves every participant
entry whose id differs from the updated profile's id exactly as it was. -/
theorem thread_update_frame (uid : Nat) (setName : Option String)
    (setPhoto : Option (Option String)) (ts : List Thread) (i j : Nat)
    (t : Thread) (p : Participant)
    (ht : ts[i]? = some t) (hp : t.participants[j]? = some p) (hid : p.id ≠ uid) :
    ∃ t2 : Thread, (threadUpdateMany uid setName setPhoto ts)[i]? = some t2 ∧
      t2.participants.length = t.participants.length ∧
      t2.participants[j]? = some p := by
  unfold threadUpdateMany
  rw [List.getElem?_map, ht, Option.map_some']
  have hpid : (p.id == uid) = false := beq_eq_false_iff_ne.mpr hid
  by_cases hany : t.participants.any (fun q => q.id == uid)
  · refine ⟨_, by rw [if_pos hany], ?_, ?_⟩
    · simp
    · simp only [List.getElem?_map, hp, Option.map_some', hpid]
      rfl
  · exact ⟨t, by rw [if_neg hany], rfl, hp⟩

/-- C8 witness: a concrete thread where the other participant's entry
survives the update unchanged. -/
theorem thread_update_frame_witness :
    ∃ t2 : Thread, (threadUpdateMany 1 (some "New Name") (some (some "new.png"))
        [sampleThread])[0]? = some t2 ∧
      t2.participants.length = sampleThread.participants.length ∧
      t2.participants[1]? = some { id := 7, name := "Bob", photo := none } :=
  thread_update_frame 1 (some "New Name") (some (some "new.png")) [sampleThread] 0 1
    sampleThread { id := 7, name := "Bob", photo := none } rfl rfl (by decide)

/-- C9 counterexample: a token whose expiry instant equals the current
time is not rejected by the PATCH unsubscribe handler — it proceeds and
updates the preferences, contradicting rejection "at or before" the
current time. -/
theorem unsubscribe_expiry_at_now_proceeds :
    patchUnsubscribe [sampleUser] { userId := 1, expireDate := 5000 } 5000 "none" =
      UnsubResult.ok "none" ∧
    ¬ patchUnsubscribe [sampleUser] { userId := 1, expireDate := 5000 } 5000 "none" =
        UnsubResult.badRequestExpired := by
  constructor
  · rfl
  · intro h
    exact absurd h (by decide)

/-- C7: an injected failure of any of the three fan-out updates does not
change the response returned to the caller (the updated profile is still
returned as success), and does not prevent the updates to the other,
non-failing collections, which are applied exactly as in a failure-free
run. -/
theorem propagation_failure_isolated (st : AppState) (userId : Nat) (b : UpdateBody)
    (f : PropagationFailures) :
    (patchCurrentUser st userId b f).1 = (patchCurrentUser st userId b noFailures).1 ∧
    (f.posts = false →
      (patchCurrentUser st userId b f).2.posts =
        (patchCurrentUser st userId b noFailures).2.posts) ∧
    (f.comments = false →
      (patchCurrentUser st userId b f).2.comments =
        (patchCurrentUser st userId b noFailures).2.comments) ∧
    (f.threads = false →
      (patchCurrentUser st userId b f).2.threads =
        (patchCurrentUser st userId b noFailures).2.threads) ∧
    (∀ u, st.users.find? (fun v => v._id == userId) = some u →
      (patchCurrentUser st userId b f).1 = some (applyBody u b)) := by
  cases hf : st.users.find? (fun v => v._id == userId) with
  | none => simp [patchCurrentUser, hf]
  | some u =>
    cases htr : b.firstName.truthy || b.lastName.truthy || b.photo.truthy with
    | false =>
      refine ⟨?_, ?_, ?_, ?_, ?_⟩ <;> simp [patchCurrentUser, hf, htr, noFailures]
    | true =>
      refine ⟨?_, ?_, ?_, ?_, ?_⟩
      · simp [patchCurrentUser, hf, htr, noFailures]
      · intro hp; simp [patchCurrentUser, hf, htr, noFailures, hp]
      · intro hp; simp [patchCurrentUser, hf, htr, noFailures, hp]
      · intro hp; simp [patchCurrentUser, hf, htr, noFailures, hp]
      · intro v hv
        injection hv with hv2
        rw [← hv2]
        simp [patchCurrentUser, hf, htr]

/-- C7 witness: with the posts update failing on the concrete state, the
caller still receives the updated profile and the comments update is
applied exactly as in the failure-free run. -/
theorem propagation_failure_isolated_witness :
    (patchCurrentUser sampleState 1 bodyNewName failPostsOnly).2.comments =
      (patchCurrentUser sampleState 1 bodyNewName noFailures).2.comments ∧
    (patchCurrentUser sampleState 1 bodyNewName failPostsOnly).1 =
      some (applyBody sampleUser bodyNewName) :=
  ⟨(propagation_failure_isolated sampleState 1 bodyNewName failPostsOnly).2.2.1 rfl,
   (propagation_failure_isolated sampleState 1 bodyNewName failPostsOnly).2.2.2.2
     sampleUser rfl⟩

/-- C10: a PATCH body whose photo is null or the empty string, with no
truthy name field, triggers no propagation at all (the trigger tests
truthiness of the submitted fields); photo removal propagates only
through the dedicated avatar-deletion route, which pushes the null
reference to all three dependent collections. -/
theorem falsy_photo_no_propagation (st : AppState) (userId : Nat) (b : UpdateBody)
    (f : PropagationFailures)
    (hfn : b.firstName.truthy = false) (hln : b.lastName.truthy = false)
    (hph : b.photo = BodyField.nullVal ∨ b.photo = BodyField.strVal "") :
    (patchCurrentUser st userId b f).2.posts = st.posts ∧
    (patchCurrentUser st userId b f).2.comments = st.comments ∧
    (patchCurrentUser st userId b f).2.threads = st.threads ∧
    (∀ u, st.users.find? (fun v => v._id == userId) = some u →
      (updateUserAvatar st userId none noFailures).2.posts =
        postUpdateMany userId { name := none, photo := some none } st.posts ∧
      (updateUserAvatar st userId none noFailures).2.comments =
        commentUpdateMany userId { name := none, photo := some none } st.comments ∧
      (updateUserAvatar st userId none noFailures).2.threads =
        threadUpdateMany userId none (some none) st.threads) := by
  have hpt : b.photo.truthy = false := by
    rcases hph with h | h <;> rw [h] <;> rfl
  have htr : (b.firstName.truthy || b.lastName.truthy || b.photo.truthy) = false := by
    rw [hfn, hln, hpt]; rfl
  cases hf : st.users.find? (fun v => v._id == userId) with
  | none => refine ⟨?_, ?_, ?_, ?_⟩ <;> simp [patchCurrentUser, updateUserAvatar, hf]
  | some u =>
    refine ⟨?_, ?_, ?_, ?_⟩
    · simp [patchCurrentUser, hf, htr]
    · simp [patchCurrentUser, hf, htr]
    · simp [patchCurrentUser, hf, htr]
    · intro v hv
      refine ⟨?_, ?_, ?_⟩ <;> simp [updateUserAvatar, hf, noFailures]

/-- C10 witness: the concrete null-photo body leaves the sample post
untouched, while the avatar-deletion route rewrites the post snapshots. -/
theorem falsy_photo_no_propagation_witness :
    (patchCurrentUser sampleState 1 bodyPhotoNull noFailures).2.posts = sampleState.posts ∧
    (updateUserAvatar sampleState 1 none noFailures).2.posts =
      postUpdateMany 1 { name := none, photo := some none } sampleState.posts :=
  ⟨(falsy_photo_no_propagation sampleState 1 bodyPhotoNull noFailures rfl rfl (Or.inl rfl)).1,
   ((falsy_photo_no_propagation sampleState 1 bodyPhotoNull noFailures rfl rfl
       (Or.inl rfl)).2.2.2 sampleUser rfl).1⟩

/-- C6 counterexample: the body `{photo: null}` touches the photo field,
yet the PATCH handler issues no fan-out at all — the stored post keeps
its stale photo reference while the profile's photo is cleared — so the
propagation is not issued "iff the submitted body touches first name,
last name, or photo". -/
theorem propagation_touch_cex :
    bodyPhotoNull.photo ≠ BodyField.absent ∧
    (patchCurrentUser sampleState 1 bodyPhotoNull noFailures).1 =
      some { sampleUser with photo := none } ∧
    (patchCurrentUser sampleState 1 bodyPhotoNull noFailures).2.posts = [samplePost] ∧
    samplePost.author.photo = some "pic.png" := by
  refine ⟨by decide, rfl, rfl, rfl⟩

/-- C6 amended: after a successful profile update, the fan-out to posts,
comments and threads is issued iff the submitted body contains a truthy
(non-empty string) first name, last name, or photo — a body touching only
those fields with falsy values triggers no propagation — and avatar
deletion through the avatar route always propagates the null photo
reference to all three dependent collections. -/
theorem propagation_trigger_truthy (st : AppState) (userId : Nat) (b : UpdateBody)
    (f : PropagationFailures) (u : UserProfile)
    (hu : st.users.find? (fun v => v._id == userId) = some u) :
    ((b.firstName.truthy || b.lastName.truthy || b.photo.truthy) = false →
      (patchCurrentUser st userId b f).2.posts = st.posts ∧
      (patchCurrentUser st userId b f).2.comments = st.comments ∧
      (patchCurrentUser st userId b f).2.threads = st.threads) ∧
    ((b.firstName.truthy || b.lastName.truthy || b.photo.truthy) = true →
      (f.posts = false →
        (patchCurrentUser st userId b f).2.posts =
          postUpdateMany userId
            { name := if b.firstName.truthy || b.lastName.truthy
                then some (applyBody u b).name else none
              photo := if b.photo.truthy then some (applyBody u b).photo else none }
            st.posts) ∧
      (f.comments = false →
        (patchCurrentUser st userId b f).2.comments =
          commentUpdateMany userId
            { name := if b.firstName.truthy || b.lastName.truthy
                then some (applyBody u b).name else none
              photo := if b.photo.truthy then some (applyBody u b).photo else none }
            st.comments) ∧
      (f.threads = false →
        (patchCurrentUser st userId b f).2.threads =
          threadUpdateMany userId (some (applyBody u b).name) (some (applyBody u b).photo)
            st.threads)) ∧
    ((updateUserAvatar st userId none f).1 = some { u with photo := none } ∧
      (f.posts = false →
        (updateUserAvatar st userId none f).2.posts =
          postUpdateMany userId { name := none, photo := some none } st.posts) ∧
      (f.comments = false →
        (updateUserAvatar st userId none f).2.comments =
          commentUpdateMany userId { name := none, photo := some none } st.comments) ∧
      (f.threads = false →
        (updateUserAvatar st userId none f).2.threads =
          threadUpdateMany userId none (some none) st.threads)) := by
  refine ⟨?_, ?_, ?_, ?_, ?_, ?_⟩
  · intro htr
    refine ⟨?_, ?_, ?_⟩ <;> simp [patchCurrentUser, hu, htr]
  · intro htr
    refine ⟨?_, ?_, ?_⟩ <;> intro hp <;> simp [patchCurrentUser, hu, htr, hp]
  · simp [updateUserAvatar, hu]
  · intro hp; simp [updateUserAvatar, hu, hp]
  · intro hp; simp [updateUserAvatar, hu, hp]
  · intro hp; simp [updateUserAvatar, hu, hp]

/-- C6 witness: a truthy first-name body on the concrete state fans out
to the posts snapshot, and avatar deletion clears the snapshot photo. -/
theorem propagation_trigger_truthy_witness :
    (patchCurrentUser sampleState 1 bodyNewName noFailures).2.posts =
      postUpdateMany 1
        { name := some (applyBody sampleUser bodyNewName).name, photo := none }
        sampleState.posts ∧
    (updateUserAvatar sampleState 1 none noFailures).1 =
      some { sampleUser with photo := none } := by
  have h := propagation_trigger_truthy sampleState 1 bodyNewName noFailures sampleUser rfl
  exact ⟨(h.2.1 rfl).1 rfl, h.2.2.1⟩

/-- C5: when metadata is requested, the response is `{meta: {total},
data}` with `total` the number of profiles matching the counting
pipeline's predicate, computed without pagination and therefore
independent of `skip` and `limit`; an empty match set yields `total = 0`
rather than an error. -/
theorem include_meta_total (ti : TextIndex) (q : SearchQuery) (user : Option UserProfile)
    (db : List UserProfile) (resp : SearchResponse)
    (hq : q.includeMeta = true) (h : getUsersEndpoint ti q user db = some resp) :
    (∃ data, resp = SearchResponse.withMeta (db.countP (countMatchPred ti q user)) data) ∧
    (∀ (sk : Option Nat) (li : Option Int),
      totalResultsAggregationPipeline ti { q with skip := sk, limit := li } user db =
        totalResultsAggregationPipeline ti q user db) := by
  constructor
  · unfold getUsersEndpoint at h
    cases hs : searchUsers ti q user db with
    | none => rw [hs] at h; simp at h
    | some data0 =>
      rw [hs] at h
      simp only [Option.map_some'] at h
      injection h with h2
      refine ⟨data0, ?_⟩
      rw [← h2]
      unfold responseHandler
      rw [hq]
      simp only [if_true]
      have htot : (match totalResultsAggregationPipeline ti q user db with
          | [] => 0 | c :: _ => c) = db.countP (countMatchPred ti q user) := by
        unfold totalResultsAggregationPipeline
        rw [List.countP_eq_length_filter]
        by_cases he : (db.filter (countMatchPred ti q user)).isEmpty
        · rw [if_pos he]
          rw [List.isEmpty_iff.mp he]
          rfl
        · rw [if_neg he]
      rw [htot]
  · intro sk li
    rfl

/-- C5 witness: a concrete metadata request over a one-profile database
reports a total of 1, and the counting pipeline ignores paging. -/
theorem include_meta_total_witness :
    (∃ data, SearchResponse.withMeta 1 [projectUser sampleUser] =
      SearchResponse.withMeta
        (List.countP (countMatchPred tiZero qMeta none) [sampleUser]) data) ∧
    (∀ (sk : Option Nat) (li : Option Int),
      totalResultsAggregationPipeline tiZero { qMeta with skip := sk, limit := li } none
          [sampleUser] =
        totalResultsAggregationPipeline tiZero qMeta none [sampleUser]) :=
  include_meta_total tiZero qMeta none [sampleUser]
    (SearchResponse.withMeta 1 [projectUser sampleUser]) rfl rfl

/-- C9 amended: both unsubscribe handlers reject with the bad-request
expiry error exactly when the token's expiry instant is strictly before
the current time (`exp` seconds against `Date.now()` milliseconds in the
GET route, `expireDate` milliseconds in the PATCH route); a token whose
expiry equals the current instant proceeds. -/
theorem unsubscribe_expiry_strict (db : List UserProfile) (tokG : UnsubTokenGet)
    (tokP : UnsubTokenPatch) (now : Nat) (newPrefs : String) :
    (getUnsubscribe db tokG now = UnsubResult.badRequestExpired ↔ tokG.exp * 1000 < now) ∧
    (patchUnsubscribe db tokP now newPrefs = UnsubResult.badRequestExpired ↔
      tokP.expireDate < now) := by
  constructor
  · unfold getUnsubscribe
    by_cases h : tokG.exp * 1000 < now
    · simp [h]
    · simp only [if_neg h]
      constructor
      · intro hc
        cases hf : db.find? (fun u => u._id == tokG.userId) <;> rw [hf] at hc <;>
          exact absurd hc (by simp)
      · intro hc
        exact absurd hc h
  · unfold patchUnsubscribe
    by_cases h : tokP.expireDate < now
    · simp [h]
    · simp only [if_neg h]
      constructor
      · intro hc
        cases hf : db.find? (fun u => u._id == tokP.userId) <;> rw [hf] at hc <;>
          exact absurd hc (by simp)
      · intro hc
        exact absurd hc h

/-- C4 counterexample: `limit = 0` is an integer different from the
sentinel `-1`, so the claim demands the empty slice `[s, s+0)`; but zero
is falsy, the page-size default of 10 applies, and the lone profile is
returned. -/
theorem pagination_limit_zero_cex :
    qLimitZero.limit = some 0 ∧ qLimitZero.skip.getD 0 = 0 ∧
    searchUsers tiZero qLimitZero none [sampleUser] = some [projectUser sampleUser] ∧
    ([projectUser sampleUser] : List ProjectedUser) ≠ [] := by
  refine ⟨rfl, rfl, rfl, by decide⟩

/-- C4 amended: with `skip = s` (absent defaulting to 0), a positive
`limit = l` returns exactly the ordered result set's positions
`[s, s+l)`; the sentinel `-1` returns all positions from `s` onward; an
absent or zero limit (both falsy) defaults to the page size 10. -/
theorem pagination_slices (ti : TextIndex) (q : SearchQuery) (user : Option UserProfile)
    (db : List UserProfile) (base : List UserProfile) (out : List ProjectedUser)
    (hbase : sortAndFilterSteps ti q user db = some base)
    (hout : searchUsers ti q user db = some out) (i : Nat) :
    (∀ l : Int, q.limit = some l → 1 ≤ l →
      out[i]? = (if i < l.toNat then base[q.skip.getD 0 + i]? else none).map projectUser) ∧
    (q.limit = some (-1) →
      out[i]? = (base[q.skip.getD 0 + i]?).map projectUser) ∧
    ((q.limit = none ∨ q.limit = some 0) →
      out[i]? = (if i < 10 then base[q.skip.getD 0 + i]? else none).map projectUser) := by
  have hout2 : out = (paginationSteps q base).map projectUser := by
    unfold searchUsers at hout
    rw [hbase] at hout
    simp only [Option.map_some'] at hout
    injection hout with h2
    exact h2.symm
  subst hout2
  refine ⟨?_, ?_, ?_⟩
  · intro l hl hpos
    have hc1 : ((some l : Option Int) == some (-1)) = false := by
      apply beq_eq_false_iff_ne.mpr
      intro hc
      injection hc with hc2
      omega
    have hz : (l == (0 : Int)) = false := beq_eq_false_iff_ne.mpr (by omega)
    simp [paginationSteps, hl, hc1, hz, List.getElem?_take, List.getElem?_drop]
    split <;> rfl
  · intro hl
    simp [paginationSteps, hl, List.getElem?_drop]
  · intro hl
    rcases hl with h | h <;>
      simp [paginationSteps, h, List.getElem?_take, List.getElem?_drop] <;>
      split <;> rfl

/-- C4 witness: on a concrete database with an absent limit, position 0
of the output is position 0 of the ordered set under the default page
size. -/
theorem pagination_slices_witness :
    ([projectUser sampleUser] : List ProjectedUser)[0]? =
      (if 0 < 10 then ([sampleUser] : List UserProfile)[0]? else none).map projectUser :=
  (pagination_slices tiZero qPlain none [sampleUser] [sampleUser] [projectUser sampleUser]
    rfl rfl 0).2.2 (Or.inl rfl)

/-- C1: exactly one of the three ranking plans is selected, with
precedence geo-proximity (whenever an effective location exists), then
text relevance (non-empty keyword), then the default plan; geo results
are ordered by non-decreasing distance with descending-identity
tie-break, text results by non-increasing relevance score, and default
results by strictly decreasing identity. -/
theorem ranking_plan_selection (ti : TextIndex) (q : SearchQuery) (user : Option UserProfile)
    (db : List UserProfile) (hids : (db.map UserProfile._id).Nodup) :
    (∀ loc, effectiveLocation q user = some loc → selectPlan q user = RankingPlan.geo loc) ∧
    (effectiveLocation q user = none → q.keywords ≠ "" →
      selectPlan q user = RankingPlan.textRel q.keywords) ∧
    (effectiveLocation q user = none → q.keywords = "" →
      selectPlan q user = RankingPlan.byIdDesc) ∧
    (∀ loc c res, effectiveLocation q user = some loc → loc.coordinates = some c →
      sortAndFilterSteps ti q user db = some res →
      res.Pairwise (fun a b => geoDistance c a ≤ geoDistance c b ∧
        (geoDistance c a = geoDistance c b → b._id < a._id))) ∧
    (∀ res, effectiveLocation q user = none → q.keywords ≠ "" →
      sortAndFilterSteps ti q user db = some res →
      res.Pairwise (fun a b => ti.score q.keywords b ≤ ti.score q.keywords a)) ∧
    (∀ res, effectiveLocation q user = none → q.keywords = "" →
      sortAndFilterSteps ti q user db = some res →
      res.Pairwise (fun a b => b._id < a._id)) := by
  refine ⟨?_, ?_, ?_, ?_, ?_, ?_⟩
  · intro loc h
    unfold selectPlan
    rw [h]
  · intro h hk
    have hkb : (q.keywords == "") = false := beq_eq_false_iff_ne.mpr hk
    unfold selectPlan
    rw [h]
    simp [hkb]
  · intro h hk
    unfold selectPlan
    rw [h]
    simp [hk]
  · intro loc c res hloc hc hres
    have hsel : selectPlan q user = RankingPlan.geo loc := by
      unfold selectPlan
      rw [hloc]
    unfold sortAndFilterSteps at hres
    rw [hsel] at hres
    simp only [hc, Option.some.injEq] at hres
    have hsort := List.sorted_insertionSort (geoOrder c)
      (db.filter (fun u => hasCoordinates u && matchesAll (buildFilters q user) u))
    have hnd := result_ids_nodup (geoOrder c) db
      (fun u => hasCoordinates u && matchesAll (buildFilters q user) u) hids
    have hne := pairwise_id_ne _ hnd
    rw [← hres]
    refine (List.Pairwise.and hsort hne).imp ?_
    rintro a b ⟨hord, hne2⟩
    unfold geoOrder at hord
    constructor
    · rcases hord with h | ⟨h, _⟩
      · omega
      · omega
    · intro heq
      rcases hord with h | ⟨h2, hle⟩ <;> omega
  · intro res hloc hk hres
    have hkb : (q.keywords == "") = false := beq_eq_false_iff_ne.mpr hk
    have hsel : selectPlan q user = RankingPlan.textRel q.keywords := by
      unfold selectPlan
      rw [hloc]
      simp [hkb]
    unfold sortAndFilterSteps at hres
    rw [hsel] at hres
    simp only [Option.some.injEq] at hres
    have hsort := List.sorted_insertionSort (textScoreOrder ti q.keywords)
      (db.filter (fun u => matchesAll (buildFilters q user) u && ti.isMatch q.keywords u))
    rw [← hres]
    exact hsort.imp (fun h => h)
  · intro res hloc hk hres
    have hsel : selectPlan q user = RankingPlan.byIdDesc := by
      unfold selectPlan
      rw [hloc]
      simp [hk]
    unfold sortAndFilterSteps at hres
    rw [hsel] at hres
    simp only [Option.some.injEq] at hres
    have hsort := List.sorted_insertionSort idDescOrder
      (db.filter (fun u => matchesAll (buildFilters q user) u))
    have hnd := result_ids_nodup idDescOrder db
      (fun u => matchesAll (buildFilters q user) u) hids
    have hne := pairwise_id_ne _ hnd
    rw [← hres]
    refine (List.Pairwise.and hsort hne).imp ?_
    rintro a b ⟨hord, hne2⟩
    unfold idDescOrder at hord
    omega

/-- C1 witness: the concrete geo search anchored at the origin returns
the nearer profile first, with the stated distance ordering. -/
theorem ranking_plan_selection_witness :
    List.Pairwise (fun a b => geoDistance (0, 0) a ≤ geoDistance (0, 0) b ∧
      (geoDistance (0, 0) a = geoDistance (0, 0) b → b._id < a._id)) [userNear, userFar] :=
  (ranking_plan_selection tiZero qGeo none [userFar, userNear] (by decide)).2.2.2.1
    locOrigin (0, 0) [userNear, userFar] rfl rfl rfl

end FP
